import Mathlib

/-!
Verification of the mesos-term core: sandbox descriptor cache, access
gateway, authorization evaluator, terminal session registry and relay.

Each definition is a shallow embedding of a function of the repository:
time is modelled in whole seconds as `Nat`, JavaScript objects used as
dictionaries are modelled as functions into `Option`, and fallible
JavaScript code (thrown errors, property access on `undefined`) is
modelled with `Except` / `Option`.
-/

/-- Status history entries of a Mesos task are plain strings in the source
(for instance "TASK_RUNNING"). -/
structure TaskInfo where
  agent_url : String
  framework_id : String
  container_id : String
  statuses : List String
  labels : List (String × String)
  user : Option String
  deriving DecidableEq, Repr

/-- The part of the agent state the fetcher reads: `slaveState.flags.work_dir`
and `slaveState.id`. -/
structure SlaveState where
  work_dir : String
  id : String
  deriving DecidableEq, Repr

/-- `SandboxDescriptor` of `src/unnamed/part_000` (sandbox controller):
agent location, working directory, cluster ids, the task descriptor and
the last known status. -/
structure SandboxDescriptor where
  agentURL : String
  workDir : String
  slaveID : String
  frameworkID : String
  containerID : String
  task : TaskInfo
  last_status : String
  deriving DecidableEq, Repr

/-- One entry of the cache kept by `cacheSandboxDescriptor`:
`{ expireAt: Date; locator: SandboxDescriptor }`, with `Date` modelled in
seconds. -/
structure CacheEntry where
  expireAt : Nat
  locator : SandboxDescriptor
  deriving DecidableEq, Repr

/-- The mutable dictionary `cache` of `cacheSandboxDescriptor`, task ID to
entry. -/
def SandboxCache : Type := String → Option CacheEntry

/-- Store `cache[taskID] = e` (JavaScript dictionary assignment). -/
def SandboxCache.insert (c : SandboxCache) (taskID : String) (e : CacheEntry) :
    SandboxCache :=
  fun id => if id = taskID then some e else c id

/-- The returned resolver of `cacheSandboxDescriptor`
(`src/unnamed/part_000` lines 44-55).  `fetcher` is the external
collaborator, a function of the task ID and of the instant it is called
(so that the embedding is deterministic).  On a hit
(`taskID in cache && cache[taskID].expireAt > new Date()`) the cached
locator is returned with no fetch; otherwise the fetcher runs and the
result is stored with `expireAt = now + 10` seconds.  The third component
records whether the external fetch was triggered. -/
def resolveSandbox (fetcher : String → Nat → SandboxDescriptor) (now : Nat)
    (taskID : String) (cache : SandboxCache) :
    SandboxDescriptor × SandboxCache × Bool :=
  match cache taskID with
  | some entry =>
    if entry.expireAt > now then
      (entry.locator, cache, false)
    else
      let res := fetcher taskID now
      (res, cache.insert taskID ⟨now + 10, res⟩, true)
  | none =>
    let res := fetcher taskID now
    (res, cache.insert taskID ⟨now + 10, res⟩, true)

/-- `clearExpiredEntries` (`src/unnamed/part_000` lines 32-42): deletes
every entry whose `expireAt < new Date()` (strictly in the past). -/
def clearExpiredEntries (now : Nat) (cache : SandboxCache) : SandboxCache :=
  fun id =>
    match cache id with
    | some entry => if entry.expireAt < now then none else some entry
    | none => none

theorem resolveSandbox_hit (fetcher : String → Nat → SandboxDescriptor)
    (now : Nat) (taskID : String) (cache : SandboxCache) (e : CacheEntry)
    (hc : cache taskID = some e) (ht : now < e.expireAt) :
    resolveSandbox fetcher now taskID cache = (e.locator, cache, false) := by
  simp [resolveSandbox, hc, ht]

theorem resolveSandbox_miss_some (fetcher : String → Nat → SandboxDescriptor)
    (now : Nat) (taskID : String) (cache : SandboxCache) (e : CacheEntry)
    (hc : cache taskID = some e) (ht : e.expireAt ≤ now) :
    resolveSandbox fetcher now taskID cache =
      (fetcher taskID now,
       cache.insert taskID ⟨now + 10, fetcher taskID now⟩, true) := by
  simp [resolveSandbox, hc, Nat.not_lt.mpr ht]

theorem resolveSandbox_miss_none (fetcher : String → Nat → SandboxDescriptor)
    (now : Nat) (taskID : String) (cache : SandboxCache)
    (hc : cache taskID = none) :
    resolveSandbox fetcher now taskID cache =
      (fetcher taskID now,
       cache.insert taskID ⟨now + 10, fetcher taskID now⟩, true) := by
  simp [resolveSandbox, hc]

theorem resolveSandbox_fetch_stores (fetcher : String → Nat → SandboxDescriptor)
    (now : Nat) (taskID : String) (cache : SandboxCache)
    (hf : (resolveSandbox fetcher now taskID cache).2.2 = true) :
    (resolveSandbox fetcher now taskID cache).2.1 taskID =
      some ⟨now + 10, fetcher taskID now⟩ := by
  unfold resolveSandbox at hf ⊢
  cases hc : cache taskID with
  | none => simp [hc, SandboxCache.insert]
  | some e =>
    simp only [hc] at hf ⊢
    by_cases ht : e.expireAt > now
    · simp [ht] at hf
    · simp [ht, SandboxCache.insert]

/-- A concrete collaborator whose answer depends on the instant of the
fetch; used to exhibit that a refetch may observe changed task metadata. -/
def timestampFetcher : String → Nat → SandboxDescriptor :=
  fun _ t =>
    { agentURL := toString t
      workDir := ""
      slaveID := ""
      frameworkID := ""
      containerID := ""
      task := ⟨"", "", "", [], [], none⟩
      last_status := "UNKNOWN" }

/-- A cache holding, for task "t1", an entry stored at time 0 (so with
`expireAt = 10`). -/
def cacheStoredAtZero : SandboxCache :=
  fun id =>
    if id = "t1" then
      some ⟨10, { agentURL := "agent-initial"
                  workDir := ""
                  slaveID := ""
                  frameworkID := ""
                  containerID := ""
                  task := ⟨"", "", "", [], [], none⟩
                  last_status := "UNKNOWN" }⟩
    else none

/-- C2 counterexample: two `resolve("t1")` calls at times 9 and 11 — only
2 seconds apart, so within 10 seconds of each other — yield descriptors
with different field values, because the cached entry (stored at time 0)
expires between the calls and the second call refetches. -/
theorem two_close_resolves_differ :
    let r1 := resolveSandbox timestampFetcher 9 "t1" cacheStoredAtZero
    let r2 := resolveSandbox timestampFetcher 11 "t1" r1.2.1
    11 - 9 < 10 ∧ r1.1 ≠ r2.1 := by
  constructor
  · decide
  · intro h
    have : "agent-initial" = "11" := congrArg SandboxDescriptor.agentURL h
    simp at this

/-- C2 amended: for an entry stored at time `t` (hence `expireAt = t + 10`),
a resolve strictly before `t + 10` returns the cached descriptor verbatim
with no external fetch and an unchanged cache; a resolve at `t + 10` or
later triggers a fresh fetch and stores the result with
`expireAt = now + 10`.  Moreover two successive resolves less than
10 seconds apart trigger at most one external fetch between them (though
their returned field values may differ, per the counterexample). -/
theorem resolveSandbox_ttl (fetcher : String → Nat → SandboxDescriptor)
    (t : Nat) (taskID : String) (cache : SandboxCache) (d : SandboxDescriptor)
    (hc : cache taskID = some ⟨t + 10, d⟩) :
    (∀ t1, t1 < t + 10 →
      resolveSandbox fetcher t1 taskID cache = (d, cache, false)) ∧
    (∀ t2, t + 10 ≤ t2 →
      resolveSandbox fetcher t2 taskID cache =
        (fetcher taskID t2,
         cache.insert taskID ⟨t2 + 10, fetcher taskID t2⟩, true)) ∧
    (∀ (c : SandboxCache) (t1 t2 : Nat), t1 ≤ t2 → t2 < t1 + 10 →
      ¬((resolveSandbox fetcher t1 taskID c).2.2 = true ∧
        (resolveSandbox fetcher t2 taskID
          (resolveSandbox fetcher t1 taskID c).2.1).2.2 = true)) := by
  refine ⟨?_, ?_, ?_⟩
  · intro t1 ht1
    exact resolveSandbox_hit fetcher t1 taskID cache ⟨t + 10, d⟩ hc ht1
  · intro t2 ht2
    exact resolveSandbox_miss_some fetcher t2 taskID cache ⟨t + 10, d⟩ hc ht2
  · rintro c t1 t2 h12 hlt ⟨hf1, hf2⟩
    have hstored := resolveSandbox_fetch_stores fetcher t1 taskID c hf1
    have hhit := resolveSandbox_hit fetcher t2 taskID
      (resolveSandbox fetcher t1 taskID c).2.1
      ⟨t1 + 10, fetcher taskID t1⟩ hstored hlt
    rw [hhit] at hf2
    simp at hf2

/-- Witness for `resolveSandbox_ttl` at a concrete cache and fetcher. -/
theorem resolveSandbox_ttl_witness :
    cacheStoredAtZero "t1" =
      some ⟨0 + 10, { agentURL := "agent-initial"
                      workDir := ""
                      slaveID := ""
                      frameworkID := ""
                      containerID := ""
                      task := ⟨"", "", "", [], [], none⟩
                      last_status := "UNKNOWN" }⟩ ∧
    ((∀ t1, t1 < 0 + 10 →
      resolveSandbox timestampFetcher t1 "t1" cacheStoredAtZero =
        ({ agentURL := "agent-initial"
           workDir := ""
           slaveID := ""
           frameworkID := ""
           containerID := ""
           task := ⟨"", "", "", [], [], none⟩
           last_status := "UNKNOWN" }, cacheStoredAtZero, false)) ∧
    (∀ t2, 0 + 10 ≤ t2 →
      resolveSandbox timestampFetcher t2 "t1" cacheStoredAtZero =
        (timestampFetcher "t1" t2,
         cacheStoredAtZero.insert "t1" ⟨t2 + 10, timestampFetcher "t1" t2⟩,
         true)) ∧
    (∀ (c : SandboxCache) (t1 t2 : Nat), t1 ≤ t2 → t2 < t1 + 10 →
      ¬((resolveSandbox timestampFetcher t1 "t1" c).2.2 = true ∧
        (resolveSandbox timestampFetcher t2 "t1"
          (resolveSandbox timestampFetcher t1 "t1" c).2.1).2.2 = true))) :=
  ⟨by decide, resolveSandbox_ttl timestampFetcher 0 "t1" cacheStoredAtZero _
    (by decide)⟩

/-- C9: the background sweep at time `s` removes exactly the entries whose
`expireAt` is already in the past (`expireAt < s`), and it is advisory:
for any later resolve (at any time `t ≥ s`, of any task ID), the
descriptor returned is the same whether or not the sweep ran, because
`resolve` re-validates expiry itself (`expireAt > now`). -/
theorem clearExpiredEntries_advisory (s t : Nat) (hst : s ≤ t)
    (fetcher : String → Nat → SandboxDescriptor) (taskID : String)
    (cache : SandboxCache) :
    (∀ id, clearExpiredEntries s cache id = none ↔
      (cache id = none ∨ ∃ e, cache id = some e ∧ e.expireAt < s)) ∧
    (resolveSandbox fetcher t taskID (clearExpiredEntries s cache)).1 =
      (resolveSandbox fetcher t taskID cache).1 := by
  constructor
  · intro id
    unfold clearExpiredEntries
    cases hc : cache id with
    | none => simp
    | some e =>
      by_cases he : e.expireAt < s
      · simp [he]
      · simp [he]
  · cases hc : cache taskID with
    | none =>
      have hswept : clearExpiredEntries s cache taskID = none := by
        simp [clearExpiredEntries, hc]
      simp [resolveSandbox, hc, hswept]
    | some e =>
      by_cases he : e.expireAt < s
      · have hswept : clearExpiredEntries s cache taskID = none := by
          simp [clearExpiredEntries, hc, he]
        have hexp : ¬(e.expireAt > t) := by omega
        simp [resolveSandbox, hc, hswept, hexp]
      · have hswept : clearExpiredEntries s cache taskID = some e := by
          simp [clearExpiredEntries, hc, he]
        by_cases ht : e.expireAt > t
        · simp [resolveSandbox, hc, hswept, ht]
        · simp [resolveSandbox, hc, hswept, ht]

/-- Witness for `clearExpiredEntries_advisory` at concrete times and cache. -/
theorem clearExpiredEntries_advisory_witness :
    (0 : Nat) ≤ 5 ∧
    ((∀ id, clearExpiredEntries 0 cacheStoredAtZero id = none ↔
      (cacheStoredAtZero id = none ∨
        ∃ e, cacheStoredAtZero id = some e ∧ e.expireAt < 0)) ∧
    (resolveSandbox timestampFetcher 5 "t1"
        (clearExpiredEntries 0 cacheStoredAtZero)).1 =
      (resolveSandbox timestampFetcher 5 "t1" cacheStoredAtZero).1) :=
  ⟨by decide,
   clearExpiredEntries_advisory 0 5 (by decide) timestampFetcher "t1"
     cacheStoredAtZero⟩

/-- The errors that the sandbox controller's catch blocks distinguish by
`instanceof`: `MesosAgentNotFoundError`, `UnauthorizedAccessError`,
`FileNotFoundError`, `TaskNotFoundError`, or any other thrown error. -/
inductive SandboxErr where
  | mesosAgentNotFound
  | unauthorizedAccess
  | fileNotFound
  | taskNotFound
  | other
  deriving DecidableEq, Repr

/-- Outcome of the gate middleware on `/api/sandbox/*`: the response
status set in the catch block (if any) and whether `await next()` runs,
handing the request to the delegate handler. -/
structure GateOutcome where
  status : Option Nat
  nextInvoked : Bool
  deriving DecidableEq, Repr

/-- The `app.get of /api/sandbox/*` middleware (`src/unnamed/part_000`
lines 76-105).  When authorization is enforced
(`env.AUTHORIZATIONS_ENABLED && !env.AUTHORIZE_ALL_SANDBOXES`) it resolves
the descriptor and runs `CheckTaskAuthorization`; `checkOutcome` is the
combined outcome of those two awaited calls.  The catch block maps
`MesosAgentNotFoundError` to 400, `UnauthorizedAccessError` to 403 and
`TaskNotFoundError` to 404, each followed by `return`; any other error
sets status 500 and sends, but the catch block has no `return` there, so
control falls through to `await next()` and the delegate handler still
runs. -/
def sandboxGate (authorizationsEnabled authorizeAllSandboxes : Bool)
    (checkOutcome : Except SandboxErr Unit) : GateOutcome :=
  if authorizationsEnabled && !authorizeAllSandboxes then
    match checkOutcome with
    | .ok _ => { status := none, nextInvoked := true }
    | .error .mesosAgentNotFound => { status := some 400, nextInvoked := false }
    | .error .unauthorizedAccess => { status := some 403, nextInvoked := false }
    | .error .taskNotFound => { status := some 404, nextInvoked := false }
    | .error .fileNotFound => { status := some 500, nextInvoked := true }
    | .error .other => { status := some 500, nextInvoked := true }
  else
    { status := none, nextInvoked := true }

/-- C1: on a denial (`UnauthorizedAccessError`) the gate returns the
mapped 403 and does not invoke the delegate — but the claim that the
delegate is never invoked unless authorization passes is violated: when
the authorization step fails with an unrecognized error the gate sends a
500 yet still invokes the delegate, because the catch block's default
branch lacks a `return` before `await next()`. -/
theorem sandboxGate_deny_and_fallthrough :
    sandboxGate true false (.error .unauthorizedAccess) =
      { status := some 403, nextInvoked := false } ∧
    sandboxGate true false (.error .other) =
      { status := some 500, nextInvoked := true } := by
  decide

/-- `readSandboxFile` result as used by the read handler: the handler only
inspects and overwrites the `eof` flag. -/
structure FileReadResult where
  data : String
  eof : Bool
  deriving DecidableEq, Repr

/-- The fetcher passed to `cacheSandboxDescriptor`
(`src/unnamed/part_000` lines 60-73): assembles the descriptor from
`getTaskInfo` and `getMesosSlaveState` results, with
`last_status = statuses[statuses.length - 1]` when the status list is
non-empty and the string "UNKNOWN" otherwise. -/
def buildSandboxDescriptor (taskInfo : TaskInfo) (slaveState : SlaveState) :
    SandboxDescriptor :=
  { agentURL := taskInfo.agent_url
    workDir := slaveState.work_dir
    slaveID := slaveState.id
    frameworkID := taskInfo.framework_id
    containerID := taskInfo.container_id
    task := taskInfo
    last_status :=
      if taskInfo.statuses.length > 0 then
        taskInfo.statuses.getLastD "UNKNOWN"
      else "UNKNOWN" }

/-- The post-read adjustment of the `/api/sandbox/read` handler
(`src/unnamed/part_000` lines 147-149): unless the descriptor's last
status is TASK_RUNNING or TASK_STARTING, force `files.eof = true`. -/
def readHandlerAdjust (sandbox : SandboxDescriptor) (files : FileReadResult) :
    FileReadResult :=
  if !(sandbox.last_status = "TASK_RUNNING" ∨
       sandbox.last_status = "TASK_STARTING" : Bool) then
    { files with eof := true }
  else files

/-- C10: whenever the descriptor's last known status is neither
TASK_RUNNING nor TASK_STARTING, the read handler forces the returned
`eof` flag to true regardless of what the sandbox I/O collaborator
reported; and a task whose status list is empty gets last status
"UNKNOWN", so its reads are always forced to eof. -/
theorem readHandler_forces_eof (sandbox : SandboxDescriptor)
    (files : FileReadResult)
    (hr : sandbox.last_status ≠ "TASK_RUNNING")
    (hs : sandbox.last_status ≠ "TASK_STARTING") :
    (readHandlerAdjust sandbox files).eof = true ∧
    (∀ (taskInfo : TaskInfo) (slaveState : SlaveState),
      taskInfo.statuses = [] →
      (buildSandboxDescriptor taskInfo slaveState).last_status = "UNKNOWN") := by
  constructor
  · simp [readHandlerAdjust, hr, hs]
  · intro taskInfo slaveState hempty
    simp [buildSandboxDescriptor, hempty]

/-- Witness for `readHandler_forces_eof` on a killed task whose
collaborator reported `eof = false`. -/
theorem readHandler_forces_eof_witness :
    ("TASK_KILLED" : String) ≠ "TASK_RUNNING" ∧
    ("TASK_KILLED" : String) ≠ "TASK_STARTING" ∧
    ((readHandlerAdjust
        { agentURL := "a", workDir := "w", slaveID := "s", frameworkID := "f"
          containerID := "c", task := ⟨"", "", "", ["TASK_KILLED"], [], none⟩
          last_status := "TASK_KILLED" }
        { data := "partial output", eof := false }).eof = true ∧
     (∀ (taskInfo : TaskInfo) (slaveState : SlaveState),
       taskInfo.statuses = [] →
       (buildSandboxDescriptor taskInfo slaveState).last_status = "UNKNOWN")) :=
  ⟨by decide, by decide,
   readHandler_forces_eof _ _ (by decide) (by decide)⟩

/-- The catch blocks of the `/api/sandbox/browse`, `/api/sandbox/read` and
`/api/sandbox/download` handlers (`src/unnamed/part_000`, e.g. lines
114-139) all map a thrown error to a response status the same way:
`MesosAgentNotFoundError` to 400, `FileNotFoundError` to 404,
`UnauthorizedAccessError` to 403, `TaskNotFoundError` to 404, anything
else to 503.  Every branch sends a response and returns, so each error is
absorbed at the request boundary. -/
def sandboxHandlerStatus : SandboxErr → Nat
  | .mesosAgentNotFound => 400
  | .fileNotFound => 404
  | .unauthorizedAccess => 403
  | .taskNotFound => 404
  | .other => 503

/-- C8 counterexample: the statuses are not pairwise distinct —
`FileNotFoundError` and `TaskNotFoundError` both map to 404 in the
sandbox handlers. -/
theorem sandboxHandlerStatus_not_injective :
    sandboxHandlerStatus .fileNotFound = sandboxHandlerStatus .taskNotFound ∧
    SandboxErr.fileNotFound ≠ SandboxErr.taskNotFound := by
  decide

/-- C8 amended: each error of the sandbox handlers' taxonomy maps to a
fixed response status at the request boundary — agent-not-found to 400,
unauthorized to 403, file-not-found to 404, task-not-found to 404, any
other error to 503 — and every status is an HTTP error response rather
than a crash; the mapping is however not injective, since file-not-found
and task-not-found share status 404. -/
theorem sandboxHandlerStatus_mapping :
    sandboxHandlerStatus .mesosAgentNotFound = 400 ∧
    sandboxHandlerStatus .unauthorizedAccess = 403 ∧
    sandboxHandlerStatus .fileNotFound = 404 ∧
    sandboxHandlerStatus .taskNotFound = 404 ∧
    sandboxHandlerStatus .other = 503 ∧
    (∀ e : SandboxErr, 400 ≤ sandboxHandlerStatus e ∧
      sandboxHandlerStatus e ≤ 503) := by
  refine ⟨rfl, rfl, rfl, rfl, rfl, ?_⟩
  intro e
  cases e <;> simp [sandboxHandlerStatus]

/-- Concatenation of the successive output chunks of a terminal, in
emission order (JavaScript string concatenation, as in
`logs[term.pid] += data`). -/
def joinChunks : List String → String
  | [] => ""
  | d :: rest => d ++ joinChunks rest

/-- State of one terminal and its websocket viewer as kept by
`src/src/app.js`: the accumulated log of the terminal
(`logs[term.pid] += data`, wired at spawn time, line 139), whether the
websocket route has attached, and the concatenation of all payloads
handed to `ws.send` on that socket. -/
structure RelayState where
  log : String
  attached : Bool
  received : String
  deriving DecidableEq, Repr

/-- The observable events of one terminal session: the process emits an
output chunk, or a websocket viewer attaches
(`app.ws('/terminals/:pid')`). -/
inductive TermEvent where
  | emit (data : String)
  | attach
  deriving DecidableEq, Repr

/-- One step of the app.js wiring.  On `emit d` the spawn-time listener
appends `d` to the log and, when a socket is attached, the websocket
route's listener also sends `d` (`ws.send(data)`, line 164).  On `attach`
the route first sends the whole accumulated log
(`ws.send(logs[term.pid])`, line 160) before subscribing to further
output. -/
def relayStep (s : RelayState) : TermEvent → RelayState
  | .emit d =>
    { s with
      log := s.log ++ d
      received := if s.attached then s.received ++ d else s.received }
  | .attach => { s with attached := true, received := s.received ++ s.log }

/-- Run a sequence of session events from a given state. -/
def relayRun (s : RelayState) (evs : List TermEvent) : RelayState :=
  evs.foldl relayStep s

/-- State right after `pty.spawn`: empty log, no viewer. -/
def initialRelayState : RelayState := ⟨"", false, ""⟩

theorem relayRun_emits_unattached (pre : List String) (l r : String) :
    relayRun ⟨l, false, r⟩ (pre.map TermEvent.emit) =
      ⟨l ++ joinChunks pre, false, r⟩ := by
  induction pre generalizing l with
  | nil => simp [relayRun, joinChunks, String.append_empty]
  | cons d rest ih =>
    simp only [List.map_cons, relayRun, List.foldl_cons, relayStep]
    have := ih (l ++ d)
    simp only [relayRun] at this
    simp only [if_neg (by simp : ¬False)] at *
    simpa [joinChunks, String.append_assoc] using this

theorem relayRun_emits_attached (post : List String) (l r : String) :
    relayRun ⟨l, true, r⟩ (post.map TermEvent.emit) =
      ⟨l ++ joinChunks post, true, r ++ joinChunks post⟩ := by
  induction post generalizing l r with
  | nil => simp [relayRun, joinChunks, String.append_empty]
  | cons d rest ih =>
    simp only [List.map_cons, relayRun, List.foldl_cons, relayStep]
    have := ih (l ++ d) (r ++ d)
    simp only [relayRun] at this
    simpa [joinChunks, String.append_assoc] using this

/-- C3: a session that has emitted the chunks `pre` before any viewer
attached replays exactly their concatenation to the channel at attach
time; once the later chunks `post` have been emitted as well, the channel
has received the buffered bytes first and the newer bytes after them, in
emission order. -/
theorem relay_history_replay (pre post : List String) :
    (relayRun initialRelayState
        (pre.map TermEvent.emit ++ [TermEvent.attach])).received =
      joinChunks pre ∧
    (relayRun initialRelayState
        (pre.map TermEvent.emit ++ [TermEvent.attach] ++
          post.map TermEvent.emit)).received =
      joinChunks pre ++ joinChunks post := by
  have hpre : relayRun initialRelayState (pre.map TermEvent.emit) =
      ⟨joinChunks pre, false, ""⟩ := by
    have := relayRun_emits_unattached pre "" ""
    simpa [initialRelayState, String.empty_append] using this
  have hattach : relayRun initialRelayState
      (pre.map TermEvent.emit ++ [TermEvent.attach]) =
      ⟨joinChunks pre, true, joinChunks pre⟩ := by
    simp only [relayRun, List.foldl_append] at hpre ⊢
    rw [hpre]
    simp [relayStep, String.empty_append]
  constructor
  · rw [hattach]
  · have hrun : relayRun initialRelayState
        (pre.map TermEvent.emit ++ [TermEvent.attach] ++
          post.map TermEvent.emit) =
        relayRun ⟨joinChunks pre, true, joinChunks pre⟩
          (post.map TermEvent.emit) := by
      simp only [relayRun, List.foldl_append] at hattach ⊢
      rw [hattach]
    rw [hrun, relayRun_emits_attached]

/-- A live pty process as the registry sees it: its current geometry. -/
structure TermProc where
  cols : Nat
  rows : Nat
  deriving DecidableEq, Repr

/-- The failure mode of looking up a stale or unknown handle: in app.js
the lookup `terminals[pid]` yields `undefined` and the subsequent method
call faults; the spec's name for this failure is `SessionNotFoundError`. -/
inductive SessionErr where
  | sessionNotFound
  deriving DecidableEq, Repr

/-- The two process-wide tables of app.js, `terminals` and `logs`, keyed
by pid, plus a ghost field recording on which pids `term.kill()` was
called (an OS-level effect the tables do not show). -/
structure TermRegistry where
  terminals : Nat → Option TermProc
  logs : Nat → Option String
  killed : Nat → Bool

/-- Lookup of a session by handle; `undefined` is the error case. -/
def getTerminal (r : TermRegistry) (pid : Nat) : Except SessionErr TermProc :=
  match r.terminals pid with
  | some t => .ok t
  | none => .error .sessionNotFound

/-- The `ws.on('close')` handler (`src/src/app.js` lines 172-178):
`term.kill()`, then `delete terminals[term.pid]` and
`delete logs[term.pid]`. -/
def wsOnClose (r : TermRegistry) (pid : Nat) : TermRegistry :=
  { terminals := fun p => if p = pid then none else r.terminals p
    logs := fun p => if p = pid then none else r.logs p
    killed := fun p => if p = pid then true else r.killed p }

/-- C4: closing the channel attached to a session kills its process,
clears its output buffer, removes the registry entry, and any subsequent
lookup of that handle fails with `SessionNotFoundError`; other sessions
are untouched. -/
theorem wsOnClose_destroys (r : TermRegistry) (pid : Nat) :
    (wsOnClose r pid).killed pid = true ∧
    (wsOnClose r pid).terminals pid = none ∧
    (wsOnClose r pid).logs pid = none ∧
    getTerminal (wsOnClose r pid) pid = .error .sessionNotFound ∧
    (∀ p, p ≠ pid → (wsOnClose r pid).terminals p = r.terminals p ∧
      (wsOnClose r pid).logs p = r.logs p ∧
      (wsOnClose r pid).killed p = r.killed p) := by
  refine ⟨by simp [wsOnClose], by simp [wsOnClose], by simp [wsOnClose],
    by simp [getTerminal, wsOnClose], ?_⟩
  intro p hp
  simp [wsOnClose, hp]

/-- A registry holding one live session: handle 3, geometry 80 by 24,
with the output "hello" buffered. -/
def oneSessionRegistry : TermRegistry :=
  ⟨fun p => if p = 3 then some ⟨80, 24⟩ else none,
   fun p => if p = 3 then some "hello" else none,
   fun _ => false⟩

/-- Witness for `wsOnClose_destroys` on the one-session registry. -/
theorem wsOnClose_destroys_witness :
    (wsOnClose oneSessionRegistry 3).killed 3 = true ∧
    (wsOnClose oneSessionRegistry 3).terminals 3 = none ∧
    (wsOnClose oneSessionRegistry 3).logs 3 = none ∧
    getTerminal (wsOnClose oneSessionRegistry 3) 3 =
      .error .sessionNotFound ∧
    (∀ p, p ≠ 3 →
      (wsOnClose oneSessionRegistry 3).terminals p =
        oneSessionRegistry.terminals p ∧
      (wsOnClose oneSessionRegistry 3).logs p = oneSessionRegistry.logs p ∧
      (wsOnClose oneSessionRegistry 3).killed p =
        oneSessionRegistry.killed p) :=
  wsOnClose_destroys oneSessionRegistry 3

/-- The `/terminals/:pid/size` handler (`src/src/app.js` lines 146-155):
`term = terminals[pid]; term.resize(cols, rows)`.  When the handle is
unknown the lookup yields `undefined` and the method call faults before
touching any process (the registry is returned unchanged); otherwise the
geometry change is forwarded to the live process. -/
def resizeEndpoint (r : TermRegistry) (pid cols rows : Nat) :
    Except SessionErr Unit × TermRegistry :=
  match r.terminals pid with
  | none => (.error .sessionNotFound, r)
  | some _ =>
    (.ok (),
     { r with terminals := fun p =>
         if p = pid then some ⟨cols, rows⟩ else r.terminals p })

/-- C6: resizing an unknown or stale handle fails with
`SessionNotFoundError` and leaves the registry (hence every process)
untouched; resizing a known handle succeeds and forwards the new
geometry to that live process, touching no other session. -/
theorem resizeEndpoint_spec (r : TermRegistry) (pid cols rows : Nat)
    (hu : r.terminals pid = none) :
    resizeEndpoint r pid cols rows = (.error .sessionNotFound, r) ∧
    (∀ (r2 : TermRegistry) (t : TermProc), r2.terminals pid = some t →
      (resizeEndpoint r2 pid cols rows).1 = .ok () ∧
      (resizeEndpoint r2 pid cols rows).2.terminals pid =
        some ⟨cols, rows⟩ ∧
      (∀ p, p ≠ pid →
        (resizeEndpoint r2 pid cols rows).2.terminals p =
          r2.terminals p)) := by
  constructor
  · simp [resizeEndpoint, hu]
  · intro r2 t hk
    refine ⟨by simp [resizeEndpoint, hk], by simp [resizeEndpoint, hk], ?_⟩
    intro p hp
    simp [resizeEndpoint, hk, hp]

/-- A registry with no live session at all. -/
def emptyTermRegistry : TermRegistry :=
  ⟨fun _ => none, fun _ => none, fun _ => false⟩

/-- Witness for `resizeEndpoint_spec`: resizing handle 7 to 120 columns
and 40 rows in an empty registry. -/
theorem resizeEndpoint_spec_witness :
    emptyTermRegistry.terminals 7 = none ∧
    (resizeEndpoint emptyTermRegistry 7 120 40 =
      (.error .sessionNotFound, emptyTermRegistry) ∧
    (∀ (r2 : TermRegistry) (t : TermProc), r2.terminals 7 = some t →
      (resizeEndpoint r2 7 120 40).1 = .ok () ∧
      (resizeEndpoint r2 7 120 40).2.terminals 7 = some ⟨120, 40⟩ ∧
      (∀ p, p ≠ 7 →
        (resizeEndpoint r2 7 120 40).2.terminals p = r2.terminals p))) :=
  ⟨rfl, resizeEndpoint_spec emptyTermRegistry 7 120 40 rfl⟩

/-- One attempt of `ws.send(data)`: it succeeds when the socket is
writable and throws when it is not. -/
def wsSendAttempt (writable : Bool) (_data : String) : Except String Unit :=
  if writable then .ok () else .error "the WebSocket is not open"

/-- The output-forwarding listener of the websocket route
(`src/src/app.js` lines 162-168) run over a whole stream of output
chunks, each tagged with whether the socket is writable at that moment:
each `ws.send` is wrapped in try/catch and a failed send is ignored.  A
propagated `.error` would model an exception escaping the listener into
the event loop. -/
def relayForwardAll : List (String × Bool) → Except String (List String)
  | [] => .ok []
  | (d, w) :: rest =>
    match wsSendAttempt w d with
    | .ok _ =>
      match relayForwardAll rest with
      | .ok delivered => .ok (d :: delivered)
      | .error e => .error e
    | .error _ => relayForwardAll rest

/-- C7: for every output stream and every pattern of socket writability,
the forwarding listener completes normally — no send failure ever escapes
as an exception — and it delivers exactly the chunks emitted while the
socket was writable, in order. -/
theorem relayForwardAll_total (events : List (String × Bool)) :
    relayForwardAll events =
      .ok ((events.filter (fun p => p.2)).map (fun p => p.1)) := by
  induction events with
  | nil => rfl
  | cons e rest ih =>
    obtain ⟨d, w⟩ := e
    cases w with
    | true => simp [relayForwardAll, wsSendAttempt, ih]
    | false => simp [relayForwardAll, wsSendAttempt, ih]

/-- Configuration of the Authorization Evaluator: whether enforcement is
globally enabled, whether the requested surface is configured exempt
(such as `AUTHORIZE_ALL_SANDBOXES` for the sandbox surface), and the
configured super-admin group set. -/
structure AuthConfig where
  authorizationsEnabled : Bool
  surfaceExempt : Bool
  superAdmins : List String
  deriving DecidableEq, Repr

/-- The authenticated operator: canonical name plus group memberships
(`User { cn, memberOf }` in `src/unnamed/part_000`). -/
structure Principal where
  name : String
  groups : List String
  deriving DecidableEq, Repr

/-- Authorization-relevant fields of a task descriptor: the optional
explicit allow-list label (comma-separated principal names, already
split), the owning-user field, and whether the task is a privileged/root
container. -/
structure TaskAuthInfo where
  allowListLabel : Option (List String)
  owner : Option String
  rootContainer : Bool
  deriving DecidableEq, Repr

/-- allow, or deny with a reason. -/
inductive AuthDecision where
  | allow
  | deny (reason : String)
  deriving DecidableEq, Repr

/-- Modelled from the spec: `CheckTaskAuthorization` of the repository's
authorizations module is not among the source files here (only its
callers are), so the Authorization Evaluator is taken from the design's
rule list, evaluated in order with the first match winning: (1) allow
when enforcement is globally disabled or the surface is exempt; (2) allow
when the task carries an explicit allow-list label naming the principal;
(3) allow when the task's owning-user field equals the principal's name;
(4) allow when the principal's groups intersect the super-admin set;
(5) allow when a supplied access token validates (the validation itself
is opaque, passed in as a boolean); (6) otherwise deny, with the
distinguished root-container reason for privileged containers.  A rule
whose condition does not hold falls through to the next, so that explicit
allow-lists and ownership short-circuit before the super-admin and token
checks. -/
def authorize (cfg : AuthConfig) (p : Principal) (t : TaskAuthInfo)
    (tokenValidates : Bool) : AuthDecision :=
  if !cfg.authorizationsEnabled || cfg.surfaceExempt then .allow
  else if (t.allowListLabel.getD []).contains p.name then .allow
  else if t.owner = some p.name then .allow
  else if p.groups.any (fun g => cfg.superAdmins.contains g) then .allow
  else if tokenValidates then .allow
  else .deny (if t.rootContainer then "unauthorized access to root container"
              else "unauthorized access to container")

/-- C5: a principal whose name equals the task's owning-user field is
always allowed, whatever the configuration, the allow-list label, the
token, and in particular the principal's group memberships — ownership
short-circuits before the super-admin and token checks. -/
theorem authorize_owner_allowed (cfg : AuthConfig) (p : Principal)
    (t : TaskAuthInfo) (tokenValidates : Bool)
    (howner : t.owner = some p.name) :
    authorize cfg p t tokenValidates = .allow := by
  unfold authorize
  split
  · rfl
  · split
    · rfl
    · simp [howner]

/-- Witness for `authorize_owner_allowed`: with enforcement on, an
allow-list that does not name her, an empty group set and no token,
alice is still allowed on the task she owns. -/
theorem authorize_owner_allowed_witness :
    (TaskAuthInfo.mk (some ["bob", "carol"]) (some "alice") false).owner =
      some "alice" ∧
    authorize ⟨true, false, ["admins"]⟩ ⟨"alice", []⟩
      ⟨some ["bob", "carol"], some "alice", false⟩ false = .allow :=
  ⟨rfl,
   authorize_owner_allowed ⟨true, false, ["admins"]⟩ ⟨"alice", []⟩
     ⟨some ["bob", "carol"], some "alice", false⟩ false rfl⟩
